import Mathlib

/-!
# Verification of the ML-SearchBar client query pipeline

Shallow embedding of `src/client/src/app/services/search-api.service.ts`
(the `SearchBarComponent` reactive pipeline and its handlers) as an explicit
event-driven state machine, together with proofs of the specification's
claims about it.

The RxJS chain built in `ngOnInit` is

  `valueChanges |> debounceTime(250) |> filter(trim nonempty)
   |> distinctUntilChanged |> tap(isOpen := true)
   |> switchMap(getSuggestions) |> tap(apply result, log impression)`

and is modelled here as a step function over a component state, driven by
external events (input changes, debounce-timer firings, network responses
and failures, clicks, blurs, blur-timer firings, destruction).  The model is
single-threaded, matching the JavaScript event loop: each event is processed
to completion before the next.

Numbers: the `score` field of a suggestion (a JS `number`) is never computed
with or compared by the pipeline, only carried; it is modelled as `Rat`.
-/

set_option linter.unnecessarySeqFocus false

/-- JavaScript's `String.prototype.trim()`: remove leading and trailing
whitespace.  (Modelled over the character list so that it computes by
structural recursion.) -/
def jsTrim (s : String) : String :=
  ⟨(((s.data.dropWhile Char.isWhitespace).reverse.dropWhile
      Char.isWhitespace).reverse)⟩

/-- `Suggestion { text, score }` from the service interface. -/
structure Suggestion where
  text : String
  score : Rat
  deriving DecidableEq

/-- `SuggestResponse { suggestions: Suggestion[] }`.  The field is optional
because the running code applies `res.suggestions ?? []`: a response body
whose `suggestions` field is `null`/absent is representable. -/
structure SuggestResponse where
  suggestions : Option (List Suggestion)
  deriving DecidableEq

/-- `ImpressionEvent` payload (the `type: "impression"` tag is carried by the
Lean type itself; `clicked` is `none` for JSON `null`). -/
structure ImpressionEvent where
  query : String
  candidates : List String
  clicked : Option String
  deriving DecidableEq

/-- `ClickEvent` payload (the `type: "click"` tag is carried by the Lean
type itself). -/
structure ClickEvent where
  query : String
  candidate : String
  deriving DecidableEq

/-- The value buffered by `debounceTime(250)` together with the instant its
quiet window elapses.  `idx` is ghost data: the ordinal of the input event
that produced the buffered value, used only to state which input a debounce
emission originated from; it influences no transition. -/
structure Pending where
  v : String
  due : Nat
  idx : Nat
  deriving DecidableEq

/-- The observable state of `SearchBarComponent` plus the internal state of
the operators of its `ngOnInit` pipeline. -/
structure PipeState where
  /-- `searchControl`'s current value. -/
  text : String
  /-- `this.suggestions`, the displayed list. -/
  suggestions : List Suggestion
  /-- `this.isOpen`, the panel-open flag. -/
  isOpen : Bool
  /-- `this.lastQueryForImpression`. -/
  lastQueryForImpression : String
  /-- `this.lastCandidates`. -/
  lastCandidates : List String
  /-- Whether `this.sub` is still an active subscription (set by `ngOnInit`,
  cleared by `ngOnDestroy` or by an error terminating the chain). -/
  subscribed : Bool
  /-- `debounceTime`'s buffered value and timer, if any. -/
  pending : Option Pending
  /-- `distinctUntilChanged`'s memory of the last value it forwarded. -/
  lastDistinct : Option String
  /-- The id of `switchMap`'s currently subscribed inner request, if any;
  responses for any other id are never delivered (inner unsubscribed). -/
  currentReq : Option Nat
  /-- Fresh id supply for requests; increases with each issued request. -/
  nextReqId : Nat
  /-- Due times of blur `setTimeout` callbacks not yet fired (`onBlur`
  stores no handle and `ngOnDestroy` does not clear them). -/
  blurTimers : List Nat
  /-- Ghost: number of input events observed so far (numbers the inputs). -/
  inputIdx : Nat
  deriving DecidableEq

/-- Observable outputs of one step: network calls and log submissions, plus
the ghost observation of what `debounceTime` emitted. -/
inductive Out where
  /-- `getSuggestions(pfx)` issued (`GET /suggest`), with its request id. -/
  | request (pfx : String) (id : Nat)
  /-- `logImpression` submitted (`POST /log_event`). -/
  | impression (e : ImpressionEvent)
  /-- `logClick` submitted (`POST /log_event`). -/
  | click (e : ClickEvent)
  /-- Ghost: `debounceTime(250)` emitted value `v`, which was buffered by
  the input event numbered `idx`. -/
  | debounced (v : String) (idx : Nat)
  /-- The subscription terminated with an unhandled error: the `.subscribe()`
  in `ngOnInit` installs no error callback, so an inner `getSuggestions`
  failure tears the chain down. -/
  | streamError (id : Nat)
  deriving DecidableEq

/-- External events driving the component, each stamped with the instant it
occurs (milliseconds). -/
inductive Ev where
  /-- The user edits the input: `searchControl.valueChanges` emits `v`.
  (`setValue` with `emitEvent: false`, used by `onSuggestionClick`, does not
  produce this event.) -/
  | input (v : String) (t : Nat)
  /-- The `debounceTime` timer is given a chance to fire at instant `t`
  (it actually fires only if a value is buffered and its window elapsed). -/
  | debounceFire (t : Nat)
  /-- The HTTP response for request `r` arrives. -/
  | response (r : Nat) (res : SuggestResponse) (t : Nat)
  /-- The HTTP request `r` fails (network/HTTP error). -/
  | failure (r : Nat) (t : Nat)
  /-- The user clicks suggestion `sug` (`onSuggestionClick`). -/
  | click (sug : Suggestion) (t : Nat)
  /-- The input loses focus (`onBlur`): schedules a 150 ms timeout. -/
  | blur (t : Nat)
  /-- A blur `setTimeout` callback is given a chance to fire at instant `t`. -/
  | blurFire (t : Nat)
  /-- `ngOnDestroy`: `this.sub?.unsubscribe()`. -/
  | destroy (t : Nat)
  deriving DecidableEq

/-- The instant at which an event occurs. -/
def Ev.time : Ev → Nat
  | .input _ t => t
  | .debounceFire t => t
  | .response _ _ t => t
  | .failure _ t => t
  | .click _ t => t
  | .blur t => t
  | .blurFire t => t
  | .destroy t => t

/-- Whether an event is an input change. -/
def Ev.isInput : Ev → Bool
  | .input _ _ => true
  | _ => false

/-- An input change while subscribed: `debounceTime` (re)buffers the value
and (re)starts its 250 ms window.  The control's text tracks the input. -/
def stepInput (s : PipeState) (v : String) (t : Nat) : PipeState × List Out :=
  if s.subscribed then
    ({ s with text := v,
              pending := some ⟨v, t + 250, s.inputIdx⟩,
              inputIdx := s.inputIdx + 1 }, [])
  else (s, [])

/-- The debounce timer fires: if a value is buffered and its quiet window
has elapsed, `debounceTime` emits it downstream through
`filter((val) => (val ?? '').trim().length > 0)`, then
`distinctUntilChanged()` (comparing the raw debounced value), then
`tap(isOpen := true)`, then `switchMap` which records
`lastQueryForImpression := prefix`, drops any still-subscribed older inner
request, and issues `getSuggestions(prefix)`. -/
def stepFire (s : PipeState) (t : Nat) : PipeState × List Out :=
  if s.subscribed then
    match s.pending with
    | none => (s, [])
    | some p =>
      if p.due ≤ t then
        if 0 < (jsTrim p.v).length then
          if s.lastDistinct = some p.v then
            -- distinctUntilChanged drops a repeat of the raw value
            ({ s with pending := none }, [Out.debounced p.v p.idx])
          else
            let pfx := jsTrim p.v
            ({ s with pending := none,
                      lastDistinct := some p.v,
                      isOpen := true,
                      lastQueryForImpression := pfx,
                      currentReq := some s.nextReqId,
                      nextReqId := s.nextReqId + 1 },
             [Out.debounced p.v p.idx, Out.request pfx s.nextReqId])
        else
          -- filtered out: trimmed value is empty
          ({ s with pending := none }, [Out.debounced p.v p.idx])
      else (s, [])
  else (s, [])

/-- The `tap` after `switchMap`, run when a response is delivered:
`suggestions := res.suggestions ?? []`, `lastCandidates := map text`, and —
only when candidates are present — exactly one `logImpression` with
`clicked: null`. -/
def applyResponse (s : PipeState) (res : SuggestResponse) :
    PipeState × List Out :=
  let sugg := res.suggestions.getD []
  let cands := sugg.map Suggestion.text
  let s1 := { s with suggestions := sugg,
                     lastCandidates := cands,
                     currentReq := none }
  if 0 < cands.length then
    (s1, [Out.impression ⟨s.lastQueryForImpression, cands, none⟩])
  else (s1, [])

/-- A response for request `r` arrives.  It is delivered only if the chain
is still subscribed and `r` is still `switchMap`'s current inner request;
otherwise the inner subscription was already dropped and nothing happens. -/
def stepResponse (s : PipeState) (r : Nat) (res : SuggestResponse) :
    PipeState × List Out :=
  if s.subscribed then
    if s.currentReq = some r then applyResponse s res
    else (s, [])
  else (s, [])

/-- Request `r` fails.  If `r` is still the current inner request the error
propagates through `switchMap` to the outer `.subscribe()`, which installs
no error handler: the whole subscription terminates (debounce timer and
inner bookkeeping are torn down, and no further value is ever processed).
A failure of an already-superseded request is never delivered. -/
def stepFailure (s : PipeState) (r : Nat) : PipeState × List Out :=
  if s.subscribed then
    if s.currentReq = some r then
      ({ s with subscribed := false, pending := none, currentReq := none },
       [Out.streamError r])
    else (s, [])
  else (s, [])

/-- `onSuggestionClick(s)`: chooses the click query as
`lastQueryForImpression || (searchControl.value ?? '')`, sets the input text
with `emitEvent: false` (no pipeline event), closes the panel, and submits
exactly one `logClick`. -/
def stepClick (s : PipeState) (sug : Suggestion) : PipeState × List Out :=
  let q := if s.lastQueryForImpression = "" then s.text
           else s.lastQueryForImpression
  ({ s with text := sug.text, isOpen := false },
   [Out.click ⟨q, sug.text⟩])

/-- `onBlur()`: schedules `isOpen := false` 150 ms later via `setTimeout`;
the handle is not stored. -/
def stepBlur (s : PipeState) (t : Nat) : PipeState × List Out :=
  ({ s with blurTimers := s.blurTimers ++ [t + 150] }, [])

/-- A blur timeout is given a chance to fire: the earliest scheduled one
whose due time has arrived runs `isOpen := false`.  `setTimeout` callbacks
fire whether or not the component was destroyed (nothing cancels them). -/
def stepBlurFire (s : PipeState) (t : Nat) : PipeState × List Out :=
  match s.blurTimers with
  | [] => (s, [])
  | due :: rest =>
    if due ≤ t then ({ s with isOpen := false, blurTimers := rest }, [])
    else (s, [])

/-- `ngOnDestroy()`: `this.sub?.unsubscribe()` tears down the whole chain —
the debounce buffer and any inner request subscription are released.  The
blur timeouts are NOT cleared (no handle was kept). -/
def stepDestroy (s : PipeState) : PipeState × List Out :=
  ({ s with subscribed := false, pending := none, currentReq := none }, [])

/-- One event-loop turn of the component. -/
def step (s : PipeState) : Ev → PipeState × List Out
  | .input v t => stepInput s v t
  | .debounceFire t => stepFire s t
  | .response r res _ => stepResponse s r res
  | .failure r _ => stepFailure s r
  | .click sug _ => stepClick s sug
  | .blur t => stepBlur s t
  | .blurFire t => stepBlurFire s t
  | .destroy _ => stepDestroy s

/-- Process a list of events in order, accumulating the outputs. -/
def run (s : PipeState) : List Ev → PipeState × List Out
  | [] => (s, [])
  | e :: es =>
    let r1 := step s e
    let r2 := run r1.1 es
    (r2.1, r1.2 ++ r2.2)

/-- The component state right after `ngOnInit`. -/
def initState : PipeState :=
  { text := ""
    suggestions := []
    isOpen := false
    lastQueryForImpression := ""
    lastCandidates := []
    subscribed := true
    pending := none
    lastDistinct := none
    currentReq := none
    nextReqId := 0
    blurTimers := []
    inputIdx := 0 }

/-- The impression submissions among a list of outputs. -/
def impressionsOf (os : List Out) : List ImpressionEvent :=
  os.filterMap fun o => match o with
    | .impression e => some e
    | _ => none

/-- The click submissions among a list of outputs. -/
def clicksOf (os : List Out) : List ClickEvent :=
  os.filterMap fun o => match o with
    | .click e => some e
    | _ => none

/-- The suggestion requests among a list of outputs. -/
def requestsOf (os : List Out) : List (String × Nat) :=
  os.filterMap fun o => match o with
    | .request pfx id => some (pfx, id)
    | _ => none

/-- Events processed by the `ngOnInit` subscription chain (as opposed to the
blur timeout machinery, which lives outside the subscription). -/
def Ev.isPipeline : Ev → Bool
  | .input _ _ => true
  | .debounceFire _ => true
  | .response _ _ _ => true
  | .failure _ _ => true
  | _ => false

/-- Modelled from the spec's words (§4.1 step 6, §8 impression-count
invariant), for comparison with the code's behaviour: exactly one
`ImpressionEvent { query, candidates, clicked: null }` per applied
non-empty response; none for empty results, for any response that is
superseded (not the current request) or arrives after teardown, and none
for any non-response event. -/
def impressionSpec (s : PipeState) (e : Ev) : List ImpressionEvent :=
  match e with
  | .response r res _ =>
    if s.subscribed = true ∧ s.currentReq = some r then
      let cands := (res.suggestions.getD []).map Suggestion.text
      if cands = [] then [] else [⟨s.lastQueryForImpression, cands, none⟩]
    else []
  | _ => []

/-- Invariant holding between an input numbered `i1` buffering `v1` at `t1`
and the next input event: the debounce buffer holds that value (or was torn
down), teardown clears the buffer, and the input counter has moved past
`i1`. -/
def MidInv (v1 : String) (t1 i1 : Nat) (s : PipeState) : Prop :=
  (s.pending = none ∨ s.pending = some ⟨v1, t1 + 250, i1⟩) ∧
  (s.subscribed = false → s.pending = none) ∧
  i1 < s.inputIdx

/-- Invariant holding once the input numbered `i1` has been superseded in
the debounce buffer: whatever is buffered came from a later input. -/
def PostInv (i1 : Nat) (s : PipeState) : Prop :=
  (∀ p, s.pending = some p → i1 < p.idx) ∧ i1 < s.inputIdx

/-- Boolean side condition on the events strictly between two inputs of a
burst: none is itself an input, and all occur no later than instant `t2`. -/
def midOk (t2 : Nat) (es : List Ev) : Bool :=
  es.all fun e => !e.isInput && decide (e.time ≤ t2)

/-! ## General lemmas about `run` -/

theorem run_cons (s : PipeState) (e : Ev) (es : List Ev) :
    run s (e :: es) =
      ((run (step s e).1 es).1, (step s e).2 ++ (run (step s e).1 es).2) :=
  rfl

theorem run_append (s : PipeState) (xs ys : List Ev) :
    run s (xs ++ ys) =
      ((run (run s xs).1 ys).1, (run s xs).2 ++ (run (run s xs).1 ys).2) := by
  induction xs generalizing s with
  | nil => simp [run]
  | cons e es ih => simp [run_cons, ih]

/-! ## C8: selection frame property -/

/-- C8: for every suggestion selection, the input's displayed text is set to
the selected suggestion's text and the panel is closed, while no suggestion
request is issued and the whole request pipeline (debounce buffer, dedup
memory, current inner request, request counter) and the displayed list are
untouched — `setValue` is called with `emitEvent: false`, so selection is
not treated as a new user-typed query. -/
theorem click_sets_text_closes_panel_issues_no_request
    (s : PipeState) (sug : Suggestion) (t : Nat) :
    (step s (Ev.click sug t)).1.text = sug.text ∧
    (step s (Ev.click sug t)).1.isOpen = false ∧
    requestsOf (step s (Ev.click sug t)).2 = [] ∧
    (step s (Ev.click sug t)).1.pending = s.pending ∧
    (step s (Ev.click sug t)).1.lastDistinct = s.lastDistinct ∧
    (step s (Ev.click sug t)).1.currentReq = s.currentReq ∧
    (step s (Ev.click sug t)).1.nextReqId = s.nextReqId ∧
    (step s (Ev.click sug t)).1.suggestions = s.suggestions :=
  ⟨rfl, rfl, rfl, rfl, rfl, rfl, rfl, rfl⟩

/-! ## C2: click-event correlation -/

/-- C2 (counterexample to the claim as stated): the displayed candidate set
at click time was produced by request 0, issued for query `"cat"` (visible
as `Out.request "cat" 0` whose applied response logged the impression for
`"cat"`), but a newer request for `"catal"` is in flight when the user
clicks, and the submitted `ClickEvent` carries query `"catal"` ≠ `"cat"`:
`onSuggestionClick` reads `lastQueryForImpression`, which `switchMap`
overwrites at request-issue time, not at response-apply time. -/
theorem click_query_counterexample :
    (run initState [Ev.input "cat" 0, Ev.debounceFire 250,
        Ev.response 0 ⟨some [⟨"catalog", 1⟩]⟩ 300,
        Ev.input "catal" 1000, Ev.debounceFire 1250,
        Ev.click ⟨"catalog", 1⟩ 1300]).2 =
      [Out.debounced "cat" 0, Out.request "cat" 0,
       Out.impression ⟨"cat", ["catalog"], none⟩,
       Out.debounced "catal" 1, Out.request "catal" 1,
       Out.click ⟨"catal", "catalog"⟩] ∧
    "catal" ≠ "cat" := by decide

/-- C2 (amended): every selection submits exactly one `ClickEvent`, whose
`candidate` is the selected suggestion's text and whose `query` is the query
of the most recently issued suggestion request (`lastQueryForImpression`),
falling back to the input's live text when no request was ever issued; no
other event ever submits a `ClickEvent`.  The click query coincides with the
query of the displayed candidate set only as long as no newer request has
been issued since that set's response was applied. -/
theorem click_event_characterization (s : PipeState) (e : Ev) :
    clicksOf (step s e).2 =
      match e with
      | Ev.click sug _ =>
        [⟨if s.lastQueryForImpression = "" then s.text
          else s.lastQueryForImpression, sug.text⟩]
      | _ => [] := by
  cases e <;>
    simp only [step, stepInput, stepFire, stepResponse, applyResponse,
      stepFailure, stepClick, stepBlur, stepBlurFire, stepDestroy] <;>
    (repeat' split) <;> rfl

/-! ## C5: de-duplication -/

/-- C5 (counterexample to the claim as stated): `"cat"` and `"cat "` have
equal normalized (trimmed) forms, are accepted consecutively, and yet issue
two requests: `distinctUntilChanged()` sits before the trim (which happens
inside `switchMap`), so it compares the raw values, which differ. -/
theorem dedup_counterexample :
    jsTrim "cat " = jsTrim "cat" ∧
    requestsOf (run initState [Ev.input "cat" 0, Ev.debounceFire 250,
        Ev.input "cat " 1000, Ev.debounceFire 1250]).2 =
      [("cat", 0), ("cat", 1)] := by decide

/-- C5 (amended): de-duplication compares the raw (pre-trim) debounced
value: when the debounced value equals the value last forwarded by
`distinctUntilChanged`, the second occurrence is suppressed — no request is
issued and nothing changes but the cleared debounce buffer.  Consecutive
values equal only after trimming are NOT de-duplicated. -/
theorem dedup_on_raw_value (s : PipeState) (v : String) (due i t : Nat)
    (hsub : s.subscribed = true) (hpend : s.pending = some ⟨v, due, i⟩)
    (hdue : due ≤ t) (hne : 0 < (jsTrim v).length)
    (hdist : s.lastDistinct = some v) :
    step s (Ev.debounceFire t) =
      ({ s with pending := none }, [Out.debounced v i]) := by
  simp [step, stepFire, hsub, hpend, hdue, hne, hdist]

/-- Witness for `dedup_on_raw_value`: after `"cat"` was forwarded and
requested, a second debounced `"cat"` is suppressed. -/
theorem dedup_on_raw_value_witness :
    ((run initState [Ev.input "cat" 0, Ev.debounceFire 250,
        Ev.input "cat" 1000]).1.subscribed = true) ∧
    ((run initState [Ev.input "cat" 0, Ev.debounceFire 250,
        Ev.input "cat" 1000]).1.pending = some ⟨"cat", 1250, 1⟩) ∧
    (1250 ≤ 1300) ∧ (0 < (jsTrim "cat").length) ∧
    ((run initState [Ev.input "cat" 0, Ev.debounceFire 250,
        Ev.input "cat" 1000]).1.lastDistinct = some "cat") ∧
    step (run initState [Ev.input "cat" 0, Ev.debounceFire 250,
        Ev.input "cat" 1000]).1 (Ev.debounceFire 1300) =
      ({ (run initState [Ev.input "cat" 0, Ev.debounceFire 250,
          Ev.input "cat" 1000]).1 with pending := none },
       [Out.debounced "cat" 1]) :=
  ⟨by decide, by decide, by decide, by decide, by decide,
   dedup_on_raw_value _ "cat" 1250 1 1300 (by decide) (by decide)
     (by decide) (by decide) (by decide)⟩

/-! ## C6: teardown safety -/

/-- C6 (counterexample to the claim as stated): `onBlur` schedules
`isOpen := false` via `setTimeout` without keeping the handle, and
`ngOnDestroy` only unsubscribes `this.sub` — so a blur timer scheduled
before disposal still fires after disposal and mutates the panel-open flag
from `true` to `false`. -/
theorem blur_timer_fires_after_dispose :
    ((run initState [Ev.input "cat" 0, Ev.debounceFire 250, Ev.blur 300,
        Ev.destroy 310]).1.subscribed = false) ∧
    ((run initState [Ev.input "cat" 0, Ev.debounceFire 250, Ev.blur 300,
        Ev.destroy 310]).1.isOpen = true) ∧
    ((step (run initState [Ev.input "cat" 0, Ev.debounceFire 250,
        Ev.blur 300, Ev.destroy 310]).1 (Ev.blurFire 450)).1.isOpen
      = false) := by decide

/-- C6 (amended): after `dispose()` (`ngOnDestroy`), no event handled by the
`ngOnInit` subscription chain — an input change, a debounce-timer firing, an
in-flight response, or an in-flight failure — mutates any state or emits
anything; however a blur `setTimeout` scheduled before disposal is NOT
cancelled and still sets the panel-open flag to `false` when it fires
(see `blur_timer_fires_after_dispose`). -/
theorem dispose_stops_pipeline (s : PipeState) (e : Ev)
    (hsub : s.subscribed = false) (he : e.isPipeline = true) :
    step s e = (s, []) := by
  cases e <;>
    simp_all [Ev.isPipeline, step, stepInput, stepFire, stepResponse,
      stepFailure]

/-- Witness for `dispose_stops_pipeline`: request 0 is in flight when the
component is destroyed; its response arriving afterwards has no effect. -/
theorem dispose_stops_pipeline_witness :
    ((run initState [Ev.input "cat" 0, Ev.debounceFire 250,
        Ev.destroy 300]).1.subscribed = false) ∧
    ((Ev.response 0 ⟨some [⟨"cat", 1⟩]⟩ 400).isPipeline = true) ∧
    step (run initState [Ev.input "cat" 0, Ev.debounceFire 250,
        Ev.destroy 300]).1 (Ev.response 0 ⟨some [⟨"cat", 1⟩]⟩ 400) =
      ((run initState [Ev.input "cat" 0, Ev.debounceFire 250,
        Ev.destroy 300]).1, []) :=
  ⟨by decide, by decide,
   dispose_stops_pipeline _ _ (by decide) (by decide)⟩

/-! ## C4: failure handling -/

/-- C4 (the code at the failing input): the request for `"cat"` fails.  The
displayed list and panel state are indeed left as they were and no
impression is logged — but the error is not caught anywhere in the chain
(`.subscribe()` installs no error callback and there is no `catchError`), so
it terminates the whole subscription (`Out.streamError`, `subscribed =
false`): the subsequent qualifying input `"dog"` passes debounce yet issues
no request.  The spec's stated failure semantics (report as a diagnostic,
keep processing subsequent input) is not what the code does. -/
theorem failed_request_terminates_stream :
    (run initState [Ev.input "cat" 0, Ev.debounceFire 250, Ev.failure 0 300,
        Ev.input "dog" 1000, Ev.debounceFire 1250]).2 =
      [Out.debounced "cat" 0, Out.request "cat" 0, Out.streamError 0] ∧
    ((run initState [Ev.input "cat" 0, Ev.debounceFire 250, Ev.failure 0 300,
        Ev.input "dog" 1000, Ev.debounceFire 1250]).1.subscribed = false) ∧
    ((run initState [Ev.input "cat" 0, Ev.debounceFire 250, Ev.failure 0 300,
        Ev.input "dog" 1000, Ev.debounceFire 1250]).1.suggestions = []) ∧
    ((run initState [Ev.input "cat" 0, Ev.debounceFire 250, Ev.failure 0 300,
        Ev.input "dog" 1000, Ev.debounceFire 1250]).1.isOpen = true) := by
  decide

/-! ## C9: empty (whitespace-only) input -/

/-- C9: an input change whose trimmed value is empty is dropped by the
`filter` stage when its debounce window elapses: no suggestion request is
issued, and the displayed suggestion list, panel-open flag, dedup memory,
current request and request counter are all left exactly as they were (only
the control's text, the ghost input counter and the emptied debounce buffer
change). -/
theorem empty_input_leaves_state (s : PipeState) (v : String) (t1 t2 : Nat)
    (hsub : s.subscribed = true) (htrim : (jsTrim v).length = 0)
    (hdue : t1 + 250 ≤ t2) :
    run s [Ev.input v t1, Ev.debounceFire t2] =
      ({ s with text := v, pending := none, inputIdx := s.inputIdx + 1 },
       [Out.debounced v s.inputIdx]) := by
  simp [run, step, stepInput, stepFire, hsub, hdue, htrim]

/-- Witness for `empty_input_leaves_state`: a whitespace-only edit. -/
theorem empty_input_leaves_state_witness :
    (initState.subscribed = true) ∧ ((jsTrim "  ").length = 0) ∧
    (0 + 250 ≤ 250) ∧
    run initState [Ev.input "  " 0, Ev.debounceFire 250] =
      ({ initState with
          text := "  ", pending := none,
          inputIdx := initState.inputIdx + 1 },
       [Out.debounced "  " initState.inputIdx]) :=
  ⟨by decide, by decide, by decide,
   empty_input_leaves_state initState "  " 0 250 (by decide) (by decide)
     (by decide)⟩

/-! ## C10: null `suggestions` field -/

/-- C10: applying a response whose `suggestions` field is `null`/absent
replaces the displayed list with the empty list (`res.suggestions ?? []`)
and submits no impression; the apply step is a total function, so it cannot
throw. -/
theorem null_suggestions_treated_as_empty (s : PipeState) (r t : Nat)
    (hsub : s.subscribed = true) (hcur : s.currentReq = some r) :
    step s (Ev.response r ⟨none⟩ t) =
      ({ s with
          suggestions := [], lastCandidates := [],
          currentReq := none }, []) := by
  simp [step, stepResponse, applyResponse, hsub, hcur]

/-- Witness for `null_suggestions_treated_as_empty`: the current request's
response comes back with a `null` body field. -/
theorem null_suggestions_witness :
    ((run initState [Ev.input "cat" 0, Ev.debounceFire 250]).1.subscribed
      = true) ∧
    ((run initState [Ev.input "cat" 0, Ev.debounceFire 250]).1.currentReq
      = some 0) ∧
    step (run initState [Ev.input "cat" 0, Ev.debounceFire 250]).1
        (Ev.response 0 ⟨none⟩ 300) =
      ({ (run initState [Ev.input "cat" 0, Ev.debounceFire 250]).1 with
          suggestions := [], lastCandidates := [],
          currentReq := none },
       []) :=
  ⟨by decide, by decide,
   null_suggestions_treated_as_empty _ 0 300 (by decide) (by decide)⟩

/-! ## C3: impression-count invariant -/

/-- C3: the impressions submitted by any single step are exactly those the
spec prescribes (`impressionSpec`): exactly one
`ImpressionEvent { query, candidates := texts of the applied suggestions,
clicked := none }` when a response for the current request is applied with a
non-empty candidate sequence, and none when the candidate sequence is empty,
when the request failed, when the response was superseded or arrives after
teardown, or on any other event. -/
theorem impression_characterization (s : PipeState) (e : Ev) :
    impressionsOf (step s e).2 = impressionSpec s e := by
  cases e <;>
    simp only [step, impressionSpec, stepInput, stepFire, stepResponse,
      applyResponse, stepFailure, stepClick, stepBlur, stepBlurFire,
      stepDestroy] <;>
    (repeat' split) <;>
    simp_all [impressionsOf, List.length_pos]

/-! ## C1: staleness / race safety -/

/-- Helper: once request `r` is stale — it was issued in the past
(`r < nextReqId`) and `switchMap` has dropped its inner subscription
(`currentReq ≠ some r`), because a newer request replaced it, its own
response or failure already arrived, or the component was torn down —
one step keeps it stale: `currentReq` is only ever set to a fresh id. -/
theorem StaleReq_preserved (r : Nat) (s : PipeState) (e : Ev)
    (h1 : r < s.nextReqId) (h2 : s.currentReq ≠ some r) :
    r < (step s e).1.nextReqId ∧ (step s e).1.currentReq ≠ some r := by
  cases e <;>
    simp only [step, stepInput, stepFire, stepResponse, applyResponse,
      stepFailure, stepClick, stepBlur, stepBlurFire, stepDestroy] <;>
    (repeat' split) <;> simp_all <;> omega

/-- Helper: staleness of a request persists under any sequence of events. -/
theorem StaleReq_run (r : Nat) (es : List Ev) (s : PipeState)
    (h1 : r < s.nextReqId) (h2 : s.currentReq ≠ some r) :
    r < (run s es).1.nextReqId ∧ (run s es).1.currentReq ≠ some r := by
  induction es generalizing s with
  | nil => exact ⟨h1, h2⟩
  | cons e es ih =>
    obtain ⟨h1', h2'⟩ := StaleReq_preserved r s e h1 h2
    exact ih _ h1' h2'

/-- C1: a superseded request's response is discarded unconditionally.  If in
state `s` request `r` has been issued (`r < nextReqId`) but is no longer
`switchMap`'s current inner request (`currentReq ≠ some r` — in particular
whenever a newer request has since been issued), then after ANY further
sequence of events `es` — including the newer request's own response
arriving first, or arbitrary network reordering — the arrival of `r`'s
response changes no state (so it never mutates the displayed suggestions)
and emits nothing (so it never submits an impression).  Only the most
recently issued request can ever have `currentReq = some r` and be
applied. -/
theorem stale_response_never_applies (s : PipeState) (r : Nat)
    (res : SuggestResponse) (es : List Ev) (t : Nat)
    (h1 : r < s.nextReqId) (h2 : s.currentReq ≠ some r) :
    step (run s es).1 (Ev.response r res t) = ((run s es).1, []) := by
  obtain ⟨-, h2'⟩ := StaleReq_run r es s h1 h2
  simp [step, stepResponse, h2']

/-- Witness for `stale_response_never_applies`: request 0 (`"c"`) is
superseded by request 1 (`"co"`); request 1's response is applied first, and
request 0's response, arriving last, does nothing. -/
theorem stale_response_never_applies_witness :
    (0 < (run initState [Ev.input "c" 0, Ev.debounceFire 250,
        Ev.input "co" 1000, Ev.debounceFire 1250]).1.nextReqId) ∧
    ((run initState [Ev.input "c" 0, Ev.debounceFire 250,
        Ev.input "co" 1000, Ev.debounceFire 1250]).1.currentReq ≠ some 0) ∧
    step (run (run initState [Ev.input "c" 0, Ev.debounceFire 250,
          Ev.input "co" 1000, Ev.debounceFire 1250]).1
        [Ev.response 1 ⟨some [⟨"cow", 1⟩]⟩ 1400]).1
      (Ev.response 0 ⟨some [⟨"cab", 1⟩]⟩ 1500) =
      ((run (run initState [Ev.input "c" 0, Ev.debounceFire 250,
          Ev.input "co" 1000, Ev.debounceFire 1250]).1
        [Ev.response 1 ⟨some [⟨"cow", 1⟩]⟩ 1400]).1, []) :=
  ⟨by decide, by decide,
   stale_response_never_applies _ 0 _ _ 1500 (by decide) (by decide)⟩

/-! ## C7: debounce -/

/-- Helper: between two inputs of a burst, `MidInv` is preserved and no
debounce emission happens: the buffered value's window has not elapsed by
instant `t2`, so the timer cannot fire. -/
theorem MidInv_preserved (v1 : String) (t1 i1 t2 : Nat) (hb : t2 < t1 + 250)
    (s : PipeState) (e : Ev) (hein : e.isInput = false)
    (het : e.time ≤ t2) (h : MidInv v1 t1 i1 s) :
    MidInv v1 t1 i1 (step s e).1 ∧
      ∀ w j, Out.debounced w j ∉ (step s e).2 := by
  obtain ⟨h1, h2, h3⟩ := h
  cases e <;>
    simp only [step, stepInput, stepFire, stepResponse, applyResponse,
      stepFailure, stepClick, stepBlur, stepBlurFire, stepDestroy] <;>
    (repeat' split) <;>
    simp_all [MidInv, Ev.isInput, Ev.time] <;> omega

/-- Helper: `MidInv_preserved`, extended along a whole event sequence
satisfying `midOk`. -/
theorem MidInv_run (v1 : String) (t1 i1 t2 : Nat) (hb : t2 < t1 + 250)
    (es : List Ev) (hmid : midOk t2 es = true) (s : PipeState)
    (h : MidInv v1 t1 i1 s) :
    MidInv v1 t1 i1 (run s es).1 ∧
      ∀ w j, Out.debounced w j ∉ (run s es).2 := by
  induction es generalizing s with
  | nil => simpa [run] using h
  | cons e es ih =>
    simp only [midOk, List.all_cons, Bool.and_eq_true] at hmid
    obtain ⟨⟨he1, he2⟩, hrest⟩ := hmid
    have hein : e.isInput = false := by simpa using he1
    have het : e.time ≤ t2 := of_decide_eq_true he2
    obtain ⟨hinv1, hout1⟩ := MidInv_preserved v1 t1 i1 t2 hb s e hein het h
    obtain ⟨hinv2, hout2⟩ := ih hrest _ hinv1
    refine ⟨hinv2, fun w j => ?_⟩
    simp only [run_cons, List.mem_append]
    rintro (hc | hc)
    · exact hout1 w j hc
    · exact hout2 w j hc

/-- Helper: once the input numbered `i1` has been superseded in the debounce
buffer, one step keeps `PostInv` and can never emit a debounce emission
tagged `i1`: the buffer only ever holds later inputs. -/
theorem PostInv_preserved (i1 : Nat) (s : PipeState) (e : Ev)
    (h : PostInv i1 s) :
    PostInv i1 (step s e).1 ∧
      ∀ w, Out.debounced w i1 ∉ (step s e).2 := by
  obtain ⟨h1, h2⟩ := h
  cases e <;>
    simp only [step, stepInput, stepFire, stepResponse, applyResponse,
      stepFailure, stepClick, stepBlur, stepBlurFire, stepDestroy] <;>
    (repeat' split) <;>
    simp_all [PostInv] <;> omega

/-- Helper: `PostInv_preserved`, extended along any event sequence. -/
theorem PostInv_run (i1 : Nat) (es : List Ev) (s : PipeState)
    (h : PostInv i1 s) :
    PostInv i1 (run s es).1 ∧
      ∀ w, Out.debounced w i1 ∉ (run s es).2 := by
  induction es generalizing s with
  | nil => simpa [run] using h
  | cons e es ih =>
    obtain ⟨hinv1, hout1⟩ := PostInv_preserved i1 s e h
    obtain ⟨hinv2, hout2⟩ := ih _ hinv1
    refine ⟨hinv2, fun w => ?_⟩
    simp only [run_cons, List.mem_append]
    rintro (hc | hc)
    · exact hout1 w hc
    · exact hout2 w hc

/-- Helper: an input while subscribed buffers its value, tagged with the
input's ordinal, and emits nothing. -/
theorem stepInput_buffers (s : PipeState) (v : String) (t : Nat)
    (hsub : s.subscribed = true) :
    (step s (Ev.input v t)).1.pending = some ⟨v, t + 250, s.inputIdx⟩ ∧
    (step s (Ev.input v t)).1.subscribed = true ∧
    (step s (Ev.input v t)).1.inputIdx = s.inputIdx + 1 ∧
    (step s (Ev.input v t)).2 = [] := by
  simp [step, stepInput, hsub]

/-- Helper: an input event establishes `PostInv` for every older input
ordinal, and emits nothing. -/
theorem stepInput_postinv (i1 : Nat) (s : PipeState) (v : String) (t : Nat)
    (hpn : s.subscribed = false → s.pending = none)
    (hidx : i1 < s.inputIdx) :
    PostInv i1 (step s (Ev.input v t)).1 ∧
      (step s (Ev.input v t)).2 = [] := by
  simp only [step, stepInput]
  split <;> simp_all [PostInv] <;> omega

/-- C7: in a burst of input changes, a value superseded within its 250 ms
quiet window never passes the debounce stage.  If input `v1` (numbered
`s.inputIdx`) at instant `t1` is followed — with only non-input events in
between, all occurring by instant `t2` — by another input at `t2 < t1 +
250`, then no step of the whole remaining trace ever produces the debounce
emission of that first input: only the last value of a burst can reach the
filter/dedup/request stages. -/
theorem debounce_drops_superseded (s : PipeState) (v1 v2 : String)
    (t1 t2 : Nat) (mid post : List Ev)
    (hsub : s.subscribed = true) (hmid : midOk t2 mid = true)
    (hburst : t2 < t1 + 250) :
    Out.debounced v1 s.inputIdx ∉
      (run s (Ev.input v1 t1 :: (mid ++ Ev.input v2 t2 :: post))).2 := by
  obtain ⟨hb1, hb2, hb3, hb4⟩ := stepInput_buffers s v1 t1 hsub
  have hmidinv : MidInv v1 t1 s.inputIdx (step s (Ev.input v1 t1)).1 := by
    refine ⟨Or.inr hb1, fun hf => ?_, by omega⟩
    rw [hf] at hb2
    exact Bool.noConfusion hb2
  obtain ⟨⟨hp, hsubp, hidx⟩, hmidout⟩ :=
    MidInv_run v1 t1 s.inputIdx t2 hburst mid hmid _ hmidinv
  obtain ⟨hpostinv, hpost4⟩ :=
    stepInput_postinv s.inputIdx (run (step s (Ev.input v1 t1)).1 mid).1
      v2 t2 hsubp hidx
  obtain ⟨_, hpostout⟩ := PostInv_run s.inputIdx post _ hpostinv
  rw [run_cons, run_append, run_cons]
  simp only [hb4, hpost4, List.nil_append, List.mem_append]
  rintro (hc | hc)
  · exact hmidout v1 s.inputIdx hc
  · exact hpostout v1 hc

/-- Witness for `debounce_drops_superseded`: `"ca"` then `"cat"` typed
100 ms apart; even when the timer is given a chance to fire later, `"ca"`
is never emitted by the debounce stage. -/
theorem debounce_drops_superseded_witness :
    (initState.subscribed = true) ∧ (midOk 100 [] = true) ∧
    (100 < 0 + 250) ∧
    Out.debounced "ca" initState.inputIdx ∉
      (run initState (Ev.input "ca" 0 ::
        ([] ++ Ev.input "cat" 100 :: [Ev.debounceFire 350]))).2 :=
  ⟨by decide, by decide, by decide,
   debounce_drops_superseded initState "ca" "cat" 0 100 []
     [Ev.debounceFire 350] (by decide) (by decide) (by decide)⟩
